import Mathlib

/-!
Verification of the LlamaEdge `chat-prompts` formatters against their
natural-language specification.

The definitions below are a shallow embedding of
`crates/chat-prompts/src/chat/cohere.rs` and
`crates/chat-prompts/src/chat/deepseek.rs`.  Messages, tool definitions and
errors follow the `endpoints` crate's data model as described by the spec
(the `endpoints` sources are not part of the verified tree).  Rust `&mut
Vec<ChatCompletionRequestMessage>` parameters become explicit state passing:
every `build` returns the (possibly rewritten) message list next to the
`Result<String>` value.
-/

set_option maxRecDepth 40000

namespace LlamaEdge

/-! ## Message model (endpoints crate, spec section 3) -/

/-- Modelled from the spec: the `endpoints` crate's text content part
(a typed part of multi-part user content carrying plain text). -/
structure TextContentPart where
  text : String
deriving DecidableEq, Repr

/-- Modelled from the spec: a typed part of multi-part user content;
only text-typed parts contribute, other kinds (images) are skipped. -/
inductive ContentPart where
  | text (part : TextContentPart)
  | image (url : String)
deriving DecidableEq, Repr

/-- Modelled from the spec: user content is either plain text or an ordered
sequence of typed parts. -/
inductive ChatCompletionUserMessageContent where
  | text (s : String)
  | parts (ps : List ContentPart)
deriving DecidableEq, Repr

/-- Modelled from the spec: a User message (content plus optional display name). -/
structure ChatCompletionUserMessage where
  content : ChatCompletionUserMessageContent
  name : Option String
deriving DecidableEq, Repr

/-- Modelled from the spec: a System message (a single text field, may be empty). -/
structure ChatCompletionSystemMessage where
  content : String
  name : Option String
deriving DecidableEq, Repr

/-- Modelled from the spec: a tool-call record emitted by an Assistant turn.
Only its presence matters to the formatters; fields are never read. -/
structure ToolCall where
  id : String
deriving DecidableEq, Repr

/-- Modelled from the spec: an Assistant message; content is optional, and an
optional list of tool-call records may be attached. -/
structure ChatCompletionAssistantMessage where
  content : Option String
  tool_calls : Option (List ToolCall)
  name : Option String
deriving DecidableEq, Repr

/-- Modelled from the spec: a Tool message (a single text field holding a
tool's returned result). -/
structure ChatCompletionToolMessage where
  content : String
deriving DecidableEq, Repr

/-- Modelled from the spec: the closed set of role-tagged conversation entries. -/
inductive ChatCompletionRequestMessage where
  | system (message : ChatCompletionSystemMessage)
  | user (message : ChatCompletionUserMessage)
  | assistant (message : ChatCompletionAssistantMessage)
  | tool (message : ChatCompletionToolMessage)
deriving DecidableEq, Repr

/-- Modelled from the spec: the `chat-prompts` crate's flat error taxonomy
(`PromptError` in `crates/chat-prompts/src/error.rs`, not under the verified
tree; the spec lists exactly these four kinds). -/
inductive PromptError where
  | NoMessages
  | NoAssistantMessage
  | BadMessages (msg : String)
  | Operation (msg : String)
deriving DecidableEq, Repr

/-! ## String helpers

Rust `str::trim` removes leading and trailing `char::is_whitespace`
characters (the Unicode `White_Space` property).  Lean's own `String.trim`
uses a smaller character class and is defined via substring primitives, so
we embed the Rust behaviour directly on the character list. -/

/-- The Unicode `White_Space` property as used by Rust `char::is_whitespace`. -/
def isRustWhitespace (c : Char) : Bool :=
  c = '\x09' || c = '\x0a' || c = '\x0b' || c = '\x0c' || c = '\x0d' || c = ' '
  || c = '\u0085' || c = '\u00A0' || c = '\u1680'
  || ('\u2000' ≤ c && c ≤ '\u200A')
  || c = '\u2028' || c = '\u2029' || c = '\u202F' || c = '\u205F' || c = '\u3000'

/-- Drop leading and trailing whitespace from a character list. -/
def trimL (s : List Char) : List Char :=
  ((s.dropWhile isRustWhitespace).reverse.dropWhile isRustWhitespace).reverse

/-- Embeds Rust `str::trim`. -/
def strTrim (s : String) : String := ⟨trimL s.data⟩

/-- Embeds Rust `String::is_empty`. -/
def strIsEmpty (s : String) : Bool := s.data.isEmpty

/-- Substring search on character lists: does `pat` occur contiguously in `s`? -/
def hasSubL (pat : List Char) : List Char → Bool
  | [] => pat.isPrefixOf []
  | c :: rest => pat.isPrefixOf (c :: rest) || hasSubL pat rest

/-- Substring search on strings (used only to state containment properties). -/
def hasSubStr (pat s : String) : Bool := hasSubL pat.data s.data

/-- Project the payload out of a successful `Result<String>`; errors give `""`. -/
def getOk : Except PromptError String → String
  | .ok s => s
  | .error _ => ""

/-- Is a `Result` value a success? -/
def isOkE : Except PromptError String → Bool
  | .ok _ => true
  | .error _ => false

/-! ## Content normalizer

Every formatter contains the same inline `match message.content()` loop:
plain text is taken verbatim, and for multi-part content the text of every
text-typed part is pushed followed by `'\n'`, other parts being skipped.
The loop accumulates into a growing string, which we mirror. -/

/-- The accumulator loop over content parts
(`for part in parts { if let ContentPart::Text(..) ... }`). -/
def partsToStringAux (content : String) : List ContentPart → String
  | [] => content
  | .text t :: rest => partsToStringAux (content ++ t.text ++ "\n") rest
  | .image _ :: rest => partsToStringAux content rest

/-- The content normalizer shared by every formatter's `append_user_message`. -/
def userContentToString : ChatCompletionUserMessageContent → String
  | .text t => t
  | .parts ps => partsToStringAux "" ps

/-- The spec's own words for the normalizer ("concatenate the text of every
text-typed part in order, inserting a newline after each; parts of other
kinds are ignored"), used as the refinement target for the code's
accumulator loop. -/
def specNormalize : List ContentPart → String
  | [] => ""
  | .text t :: rest => t.text ++ "\n" ++ specNormalize rest
  | .image _ :: rest => specNormalize rest

/-! ## Assistant content resolution

Every `append_assistant_message` starts with the same match: content present
is used; absent content is the empty string when `tool_calls` is present
(`message.tool_calls().is_some()`), else `NoAssistantMessage`. -/

/-- The shared assistant-content match of every `append_assistant_message`. -/
def assistantContent (message : ChatCompletionAssistantMessage) :
    Except PromptError String :=
  match message.content with
  | some content => .ok content
  | none =>
    match message.tool_calls with
    | some _ => .ok ""
    | none => .error .NoAssistantMessage

/-- An Assistant message rejected by `assistantContent`: neither content nor
tool-calls present. -/
def isBadAssistant : ChatCompletionRequestMessage → Bool
  | .assistant a => a.content.isNone && a.tool_calls.isNone
  | _ => false

/-! ## The message fold shared by every `build`

Each `build` runs the same `for message in messages` loop, dispatching on
the role: User and Assistant messages extend the accumulated prompt, Tool
messages do so only in `build_with_tools` of the tool formatter, and all
other roles `continue`.  The loop is parameterised by the formatter's
`append_*` functions; assistant appends consume the resolved content. -/

/-- One loop iteration of a `build` fold. -/
def stepMsg (fu : String → ChatCompletionUserMessage → String)
    (fa : String → String → String)
    (ft : Option (String → ChatCompletionToolMessage → String))
    (prompt : String) : ChatCompletionRequestMessage → Except PromptError String
  | .user m => .ok (fu prompt m)
  | .assistant m => (assistantContent m).map (fa prompt)
  | .tool m =>
    match ft with
    | some f => .ok (f prompt m)
    | none => .ok prompt
  | .system _ => .ok prompt

/-- The `for message in messages` loop of every `build`. -/
def chatFold (fu : String → ChatCompletionUserMessage → String)
    (fa : String → String → String)
    (ft : Option (String → ChatCompletionToolMessage → String)) :
    List ChatCompletionRequestMessage → String → Except PromptError String
  | [], prompt => .ok prompt
  | m :: rest, prompt =>
    match stepMsg fu fa ft prompt m with
    | .ok p => chatFold fu fa ft rest p
    | .error e => .error e

/-! ## `DeepseekChatPrompt` (deepseek.rs lines 9-89) -/

/-- `DeepseekChatPrompt::append_user_message`. -/
def deepseekChat_append_user (chat_history : String)
    (message : ChatCompletionUserMessage) : String :=
  let content := userContentToString message.content
  if strIsEmpty chat_history then "User: " ++ strTrim content
  else strTrim chat_history ++ "User: " ++ strTrim content

/-- `DeepseekChatPrompt::append_assistant_message`, after content resolution. -/
def deepseekChat_append_assistant (chat_history content : String) : String :=
  strTrim chat_history ++ "\n\nAssistant: " ++ strTrim content ++ "<|end_of_sentence|>"

/-- `DeepseekChatPrompt::build`.  The Rust `&mut Vec` parameter is returned
unchanged next to the result (the function never writes to it). -/
def deepseekChat_build (messages : List ChatCompletionRequestMessage) :
    List ChatCompletionRequestMessage × Except PromptError String :=
  if messages.isEmpty then (messages, .error .NoMessages)
  else
    (messages,
      (chatFold deepseekChat_append_user deepseekChat_append_assistant none messages "").map
        (fun prompt => prompt ++ "\n\nAssistant:"))

/-! ## `DeepseekCoderPrompt` (deepseek.rs lines 91-198) -/

/-- The hard-coded DeepSeek-Coder system text (deepseek.rs lines 99 and 172). -/
def deepseekCoderDefault : String :=
  "You are an AI programming assistant, utilizing the DeepSeek Coder model, developed by DeepSeek Company, and you only answer questions related to computer science. For politically sensitive questions, security and privacy issues, and other non-computer science questions, you will refuse to answer."

/-- `DeepseekCoderPrompt::create_system_prompt`. -/
def deepseekCoder_create_system_prompt (message : ChatCompletionSystemMessage) : String :=
  if strIsEmpty message.content then deepseekCoderDefault else message.content

/-- `DeepseekCoderPrompt::append_user_message`. -/
def deepseekCoder_append_user (system_prompt chat_history : String)
    (message : ChatCompletionUserMessage) : String :=
  let content := userContentToString message.content
  if strIsEmpty chat_history then
    strTrim system_prompt ++ "\n### Instruction:\n" ++ strTrim content
  else
    strTrim chat_history ++ "\n### Instruction:\n" ++ strTrim content

/-- `DeepseekCoderPrompt::append_assistant_message`, after content resolution. -/
def deepseekCoder_append_assistant (chat_history content : String) : String :=
  strTrim chat_history ++ "\n### Response:\n" ++ strTrim content ++ "\n<|EOT|>"

/-- `DeepseekCoderPrompt::build`. -/
def deepseekCoder_build (messages : List ChatCompletionRequestMessage) :
    List ChatCompletionRequestMessage × Except PromptError String :=
  if messages.isEmpty then (messages, .error .NoMessages)
  else
    let system_prompt :=
      match messages.head? with
      | some (.system m) => deepseekCoder_create_system_prompt m
      | _ => deepseekCoderDefault
    (messages,
      (chatFold (deepseekCoder_append_user system_prompt) deepseekCoder_append_assistant
          none messages "").map
        (fun prompt => prompt ++ "\n### Response:"))

/-! ## `DeepseekChat2Prompt` (deepseek.rs lines 200-307) -/

/-- The hard-coded DeepSeek-V2 system text (deepseek.rs lines 208 and 281). -/
def deepseekChat2Default : String :=
  "<|begin▁of▁sentence|>" ++ deepseekCoderDefault

/-- `DeepseekChat2Prompt::create_system_prompt`. -/
def deepseekChat2_create_system_prompt (message : ChatCompletionSystemMessage) : String :=
  if strIsEmpty message.content then deepseekChat2Default
  else "<|begin▁of▁sentence|>" ++ message.content

/-- `DeepseekChat2Prompt::append_user_message`. -/
def deepseekChat2_append_user (system_prompt chat_history : String)
    (message : ChatCompletionUserMessage) : String :=
  let content := userContentToString message.content
  if strIsEmpty chat_history then
    strTrim system_prompt ++ "\n\nUser: " ++ strTrim content
  else
    strTrim chat_history ++ "User: " ++ strTrim content

/-- `DeepseekChat2Prompt::append_assistant_message`, after content resolution. -/
def deepseekChat2_append_assistant (chat_history content : String) : String :=
  strTrim chat_history ++ "\n\nAssistant: " ++ strTrim content ++ "<|end_of_sentence|>"

/-- `DeepseekChat2Prompt::build`. -/
def deepseekChat2_build (messages : List ChatCompletionRequestMessage) :
    List ChatCompletionRequestMessage × Except PromptError String :=
  if messages.isEmpty then (messages, .error .NoMessages)
  else
    let system_prompt :=
      match messages.head? with
      | some (.system m) => deepseekChat2_create_system_prompt m
      | _ => deepseekChat2Default
    (messages,
      (chatFold (deepseekChat2_append_user system_prompt) deepseekChat2_append_assistant
          none messages "").map
        (fun prompt => prompt ++ "\n\nAssistant:"))

/-! ## `DeepseekChat25Prompt` (deepseek.rs lines 309-417) -/

/-- The hard-coded DeepSeek-V2.5 system text (deepseek.rs lines 317 and 391). -/
def deepseekChat25Default : String :=
  "<|begin▁of▁sentence|>You are a helpful Assistant."

/-- `DeepseekChat25Prompt::create_system_prompt`. -/
def deepseekChat25_create_system_prompt (message : ChatCompletionSystemMessage) : String :=
  if strIsEmpty message.content then deepseekChat25Default
  else "<|begin▁of▁sentence|>" ++ message.content

/-- `DeepseekChat25Prompt::append_user_message`. -/
def deepseekChat25_append_user (system_prompt chat_history : String)
    (message : ChatCompletionUserMessage) : String :=
  let content := userContentToString message.content
  if strIsEmpty chat_history then
    strTrim system_prompt ++ "<|User|>" ++ strTrim content
  else
    strTrim chat_history ++ "<|User|>" ++ strTrim content

/-- `DeepseekChat25Prompt::append_assistant_message`, after content resolution. -/
def deepseekChat25_append_assistant (chat_history content : String) : String :=
  strTrim chat_history ++ "<|Assistant|>" ++ strTrim content ++ "<|end_of_sentence|>"

/-- `DeepseekChat25Prompt::build`. -/
def deepseekChat25_build (messages : List ChatCompletionRequestMessage) :
    List ChatCompletionRequestMessage × Except PromptError String :=
  if messages.isEmpty then (messages, .error .NoMessages)
  else
    let system_prompt :=
      match messages.head? with
      | some (.system m) => deepseekChat25_create_system_prompt m
      | _ => deepseekChat25Default
    (messages,
      (chatFold (deepseekChat25_append_user system_prompt) deepseekChat25_append_assistant
          none messages "").map
        (fun prompt => prompt ++ "<|Assistant|>"))

/-! ## JSON values and the `serde_json` serializers

`DeepseekToolPrompt` renders tool definitions with `serde_json::to_string`
(compact) and `serde_json::to_string_pretty` (two-space indent).  The JSON
value type is given as a mutual inductive so that the serializers are
structurally recursive and reduce inside the kernel. -/

mutual
/-- A JSON value (the shape `serde_json` serializes). -/
inductive Json where
  | null : Json
  | bool (b : Bool) : Json
  | num (n : Int) : Json
  | str (s : String) : Json
  | arr (items : JsonArr) : Json
  | obj (fields : JsonObj) : Json
/-- A JSON array, as its own inductive to keep recursion structural. -/
inductive JsonArr where
  | nil : JsonArr
  | cons (hd : Json) (tl : JsonArr) : JsonArr
/-- A JSON object (ordered field list), as its own inductive. -/
inductive JsonObj where
  | nil : JsonObj
  | cons (key : String) (val : Json) (tl : JsonObj) : JsonObj
end

/-- Lower-case hex digit, for JSON control-character escapes. -/
def hexDigit (n : Nat) : Char :=
  if n < 10 then Char.ofNat ('0'.toNat + n) else Char.ofNat ('a'.toNat + n - 10)

/-- `serde_json` escaping of one character inside a JSON string literal. -/
def escChar (c : Char) : List Char :=
  if c = '"' then ['\\', '"']
  else if c = '\\' then ['\\', '\\']
  else if c = '\x08' then ['\\', 'b']
  else if c = '\x0c' then ['\\', 'f']
  else if c = '\n' then ['\\', 'n']
  else if c = '\r' then ['\\', 'r']
  else if c = '\t' then ['\\', 't']
  else if c < ' ' then ['\\', 'u', '0', '0', hexDigit (c.toNat / 16), hexDigit (c.toNat % 16)]
  else [c]

/-- A JSON string literal: quotes around the escaped content. -/
def strLit (s : String) : String := "\"" ++ ⟨(s.data.map escChar).flatten⟩ ++ "\""

/-- Decimal rendering of a JSON number. -/
def numLit (n : Int) : String := toString n

mutual
/-- `serde_json::to_string`: compact serialization, no whitespace. -/
def jsonCompact : Json → String
  | .null => "null"
  | .bool true => "true"
  | .bool false => "false"
  | .num n => numLit n
  | .str s => strLit s
  | .arr .nil => "[]"
  | .arr (.cons h t) => "[" ++ jsonCompact h ++ jsonCompactArr t ++ "]"
  | .obj .nil => "\x7b\x7d"
  | .obj (.cons k v t) => "\x7b" ++ strLit k ++ ":" ++ jsonCompact v ++ jsonCompactObj t ++ "\x7d"
/-- Compact serialization of the remaining array items (each behind a comma). -/
def jsonCompactArr : JsonArr → String
  | .nil => ""
  | .cons h t => "," ++ jsonCompact h ++ jsonCompactArr t
/-- Compact serialization of the remaining object fields (each behind a comma). -/
def jsonCompactObj : JsonObj → String
  | .nil => ""
  | .cons k v t => "," ++ strLit k ++ ":" ++ jsonCompact v ++ jsonCompactObj t
end

/-- Two-space indentation at the given nesting level. -/
def indentStr : Nat → String
  | 0 => ""
  | n + 1 => indentStr n ++ "  "

mutual
/-- `serde_json::to_string_pretty`: two-space indent, newline-separated items,
a space after each object colon, `[]`/`\x7b\x7d` for empty collections. -/
def jsonPretty : Nat → Json → String
  | _, .null => "null"
  | _, .bool true => "true"
  | _, .bool false => "false"
  | _, .num n => numLit n
  | _, .str s => strLit s
  | _, .arr .nil => "[]"
  | lvl, .arr (.cons h t) =>
    "[\n" ++ indentStr (lvl + 1) ++ jsonPretty (lvl + 1) h ++ jsonPrettyArr (lvl + 1) t
      ++ "\n" ++ indentStr lvl ++ "]"
  | _, .obj .nil => "\x7b\x7d"
  | lvl, .obj (.cons k v t) =>
    "\x7b\n" ++ indentStr (lvl + 1) ++ strLit k ++ ": " ++ jsonPretty (lvl + 1) v
      ++ jsonPrettyObj (lvl + 1) t ++ "\n" ++ indentStr lvl ++ "\x7d"
/-- Pretty serialization of the remaining array items. -/
def jsonPrettyArr : Nat → JsonArr → String
  | _, .nil => ""
  | lvl, .cons h t => ",\n" ++ indentStr lvl ++ jsonPretty lvl h ++ jsonPrettyArr lvl t
/-- Pretty serialization of the remaining object fields. -/
def jsonPrettyObj : Nat → JsonObj → String
  | _, .nil => ""
  | lvl, .cons k v t =>
    ",\n" ++ indentStr lvl ++ strLit k ++ ": " ++ jsonPretty lvl v ++ jsonPrettyObj lvl t
end

/-! ## Tool definitions

Modelled from the spec: a tool definition is "a name and a JSON-serializable
function schema (parameters description)" (the `endpoints` crate's `Tool` and
its function type are not under the verified tree). -/

/-- Modelled from the spec: a tool's function — a name and a JSON-serializable
parameters schema. -/
structure Func where
  name : String
  parameters : Json

/-- Modelled from the spec: a tool definition wrapping one function. -/
structure Tool where
  function : Func

/-- The JSON value `serde_json` produces for a tool's function. -/
def funcToJson (f : Func) : Json :=
  .obj (.cons "name" (.str f.name) (.cons "parameters" f.parameters .nil))

/-- The JSON value `serde_json` produces for a tool definition. -/
def toolToJson (t : Tool) : Json := .obj (.cons "function" (funcToJson t.function) .nil)

/-- A tool list as a JSON array. -/
def toolListToArr : List Tool → JsonArr
  | [] => .nil
  | t :: ts => .cons (toolToJson t) (toolListToArr ts)

/-- `serde_json::to_string(tools)` for a tool slice. -/
def toolsCompact (ts : List Tool) : String := jsonCompact (.arr (toolListToArr ts))

/-! ## `DeepseekToolPrompt` (deepseek.rs lines 419-653) -/

/-- `DeepseekToolPrompt::create_system_prompt` (identical to the V2.5 one). -/
def deepseekTool_create_system_prompt (message : ChatCompletionSystemMessage) : String :=
  if strIsEmpty message.content then deepseekChat25Default
  else "<|begin▁of▁sentence|>" ++ message.content

/-- The "## Tools" section header appended before the rendered functions
(deepseek.rs lines 445 and 467 share this suffix text). -/
def deepseekToolSectionHeader : String :=
  "\n\n## Tools\n\n### Function\n\nYou have the following functions available:"

/-- The per-tool block of `create_system_prompt_tool`: a labeled name and the
pretty-printed function schema in a fenced json block. -/
def toolSection : List Tool → String
  | [] => ""
  | t :: ts =>
    "\n\n- \x60" ++ t.function.name ++ "\x60:\n\x60\x60\x60json\n"
      ++ jsonPretty 0 (funcToJson t.function) ++ "\n\x60\x60\x60" ++ toolSection ts

/-- `DeepseekToolPrompt::create_system_prompt_tool` (deepseek.rs lines 435-493). -/
def create_system_prompt_tool (message : ChatCompletionSystemMessage)
    (tools : Option (List Tool)) : String :=
  if strIsEmpty message.content then
    match tools with
    | some ts =>
      if ts.isEmpty then deepseekChat25Default
      else
        "<|begin▁of▁sentence|>"
          ++ ("You are a helpful Assistant." ++ deepseekToolSectionHeader ++ toolSection ts)
    | none => deepseekChat25Default
  else
    match tools with
    | some ts =>
      if ts.isEmpty then "<|begin▁of▁sentence|>" ++ message.content
      else
        "<|begin▁of▁sentence|>"
          ++ (message.content ++ deepseekToolSectionHeader ++ toolSection ts)
    | none => "<|begin▁of▁sentence|>" ++ message.content

/-- `DeepseekToolPrompt::append_user_message` (same shape as V2.5). -/
def deepseekTool_append_user (system_prompt chat_history : String)
    (message : ChatCompletionUserMessage) : String :=
  let content := userContentToString message.content
  if strIsEmpty chat_history then
    strTrim system_prompt ++ "<|User|>" ++ strTrim content
  else
    strTrim chat_history ++ "<|User|>" ++ strTrim content

/-- `DeepseekToolPrompt::append_assistant_message`, after content resolution. -/
def deepseekTool_append_assistant (chat_history content : String) : String :=
  strTrim chat_history ++ "<|Assistant|>" ++ strTrim content ++ "<|end_of_sentence|>"

/-- `DeepseekToolPrompt::append_tool_message`. -/
def deepseekTool_append_tool (chat_history : String)
    (message : ChatCompletionToolMessage) : String :=
  strTrim chat_history ++ "<|tool|>" ++ strTrim message.content

/-- `DeepseekToolPrompt::build` (tools ignored; Tool messages skipped). -/
def deepseekTool_build (messages : List ChatCompletionRequestMessage) :
    List ChatCompletionRequestMessage × Except PromptError String :=
  if messages.isEmpty then (messages, .error .NoMessages)
  else
    let system_prompt :=
      match messages.head? with
      | some (.system m) => deepseekTool_create_system_prompt m
      | _ => deepseekChat25Default
    (messages,
      (chatFold (deepseekTool_append_user system_prompt) deepseekTool_append_assistant
          none messages "").map
        (fun prompt => prompt ++ "<|Assistant|>"))

/-- The instructional template opening of `build_with_tools` when the first
message is not System and tools are supplied (deepseek.rs line 620; a Rust
raw string, so its `\n` is the two characters backslash-n). -/
def deepseekToolBwtBegin : String :=
  "<|im_start|>system\\nYou are a function calling AI model. You are provided with function signatures within <tools></tools> XML tags. You may call one or more functions to assist with the user query. Don\x27t make assumptions about what values to plug into functions. Here are the available tools:"

/-- The instructional template closing of `build_with_tools` (deepseek.rs line
622; a Rust raw string, so every `\n` is literally backslash-n). -/
def deepseekToolBwtEnd : String :=
  "Use the following pydantic model json schema for each tool call you will make: \x7b\"properties\": \x7b\"arguments\": \x7b\"title\": \"Arguments\", \"type\": \"object\"\x7d, \"name\": \x7b\"title\": \"Name\", \"type\": \"string\"\x7d\x7d, \"required\": [\"arguments\", \"name\"], \"title\": \"FunctionCall\", \"type\": \"object\"\x7d For each function call return a json object with function name and arguments within <tool_call></tool_call> XML tags as follows:\\n<tool_call>\\n\x7b\"arguments\": <args-dict>, \"name\": <function-name>\x7d\\n</tool_call><|im_end|>"

/-- The tool-free default preamble of `build_with_tools` (deepseek.rs line 627;
an ordinary Rust string, so its `\n` is a real newline). -/
def deepseekToolBwtDefault : String :=
  "<|im_start|>system\nAnswer as concisely as possible.<|im_end|>"

/-- The system-preamble computation of `DeepseekToolPrompt::build_with_tools`
(deepseek.rs lines 611-630).  `build_with_tools` checks non-emptiness before
indexing `messages[0]`, which `head?` mirrors. -/
def deepseekTool_system_prompt_wt (messages : List ChatCompletionRequestMessage)
    (tools : Option (List Tool)) : String :=
  match messages.head? with
  | some (.system m) => create_system_prompt_tool m tools
  | _ =>
    match tools with
    | some ts =>
      deepseekToolBwtBegin ++ " " ++ ("<tools> " ++ toolsCompact ts ++ " </tools>")
        ++ " " ++ deepseekToolBwtEnd
    | none => deepseekToolBwtDefault

/-- `DeepseekToolPrompt::build_with_tools` (deepseek.rs lines 601-652); the
fold also consumes Tool messages. -/
def deepseekTool_build_with_tools (messages : List ChatCompletionRequestMessage)
    (tools : Option (List Tool)) :
    List ChatCompletionRequestMessage × Except PromptError String :=
  if messages.isEmpty then (messages, .error .NoMessages)
  else
    (messages,
      (chatFold (deepseekTool_append_user (deepseekTool_system_prompt_wt messages tools))
          deepseekTool_append_assistant (some deepseekTool_append_tool) messages "").map
        (fun prompt => prompt ++ "<|Assistant|>"))

/-! ## `CohereChatPrompt` (cohere.rs) -/

/-- The fixed multi-part safety/system preamble (cohere.rs lines 77-89; a Rust
raw string, transcribed byte for byte). -/
def coherePreamble : String :=
  "# Safety Preamble\nThe instructions in this section override those in the task description and style guide sections. Don\x27t answer questions that are harmful or immoral.\n\n# System Preamble\n## Basic Rules\nYou are a powerful conversational AI trained by Cohere to help people. You are augmented by a number of tools, and your job is to use and consume the output of these tools to best help the user. You will see a conversation history between yourself and a user, ending with an utterance from the user. You will then see a specific instruction instructing you what kind of response to generate. When you answer the user\x27s requests, you cite your sources in your answers, according to those instructions.\n\n# User Preamble\n## Task and Context\nYou help people answer their questions and other requests interactively. You will be asked a very wide array of requests on all kinds of topics. You will be equipped with a wide range of search engines or similar tools to help you, which you use to research your answer. You should focus on serving the user\x27s needs as best you can, which will be wide-ranging.\n\n## Style Guide\nUnless the user asks for a different style of answer, you should answer in full sentences, using proper grammar and spelling."

/-- The system prompt wrapping the preamble in the grammar's system-turn
markers behind the begin-of-sequence token (cohere.rs lines 90-92). -/
def cohereSystemPrompt : String :=
  "<BOS_TOKEN><|START_OF_TURN_TOKEN|><|SYSTEM_TOKEN|>" ++ coherePreamble
    ++ "<|END_OF_TURN_TOKEN|>"

/-- The fixed grounding-instructions text (cohere.rs lines 154-158). -/
def cohereInstructions : String :=
  "Carefully perform the following instructions, in order, starting each with a new line.\nFirstly, Decide which of the retrieved documents are relevant to the user\x27s last input by writing \x27Relevant Documents:\x27 followed by comma-separated list of document numbers. If none are relevant, you should instead write \x27None\x27.\nSecondly, Decide which of the retrieved documents contain facts that should be cited in a good answer to the user\x27s last input by writing \x27Cited Documents:\x27 followed a comma-separated list of document numbers. If you dont want to cite any of them, you should instead write \x27None\x27.\nThirdly, Write \x27Answer:\x27 followed by a response to the user\x27s last input in high quality natural english. Use the retrieved documents to help you. Do not insert any citations or grounding markup.\nFinally, Write \x27Grounded answer:\x27 followed by a response to the user\x27s last input in high quality natural english. Use the symbols <co: doc> and </co: doc> to indicate when a fact comes from a document in the search result, e.g <co: 0>my fact</co: 0> for a fact from document 0."

/-- The `BadMessages` description used by `CohereChatPrompt::build`. -/
def cohereBadLast : String := "The last message in the chat request is not user message."

/-- `CohereChatPrompt::append_user_message`. -/
def cohere_append_user (chat_history : String)
    (message : ChatCompletionUserMessage) : String :=
  let content := userContentToString message.content
  if strIsEmpty chat_history then
    strTrim cohereSystemPrompt ++ "<|START_OF_TURN_TOKEN|><|USER_TOKEN|>"
      ++ strTrim content ++ "<|END_OF_TURN_TOKEN|>"
  else
    strTrim chat_history ++ "<|START_OF_TURN_TOKEN|><|USER_TOKEN|>"
      ++ strTrim content ++ "<|END_OF_TURN_TOKEN|>"

/-- `CohereChatPrompt::append_assistant_message`, after content resolution. -/
def cohere_append_assistant (chat_history content : String) : String :=
  strTrim chat_history ++ "<|START_OF_TURN_TOKEN|><|CHATBOT_TOKEN|>"
    ++ strTrim content ++ "<|END_OF_TURN_TOKEN|>"

/-- The leftmost-match semantics of `Regex::new(r"(?s)(<result>.*?</result>)")
.find(content)`, restricted to the match start (the only part `build` uses:
`content[..start]` and `content[start..]`).  A match starts at the leftmost
position where `<result>` begins and `</result>` occurs at offset at least 8
from it; `(?s)` lets `.*?` span newlines, so only those two literals matter.
Returns the split `(before the match, from the match to the end)`. -/
def splitAtResult : List Char → Option (List Char × List Char)
  | [] => none
  | c :: rest =>
    if "<result>".data.isPrefixOf (c :: rest)
        && hasSubL "</result>".data (List.drop 8 (c :: rest)) then
      some ([], c :: rest)
    else
      match splitAtResult rest with
      | some (pre, suf) => some (c :: pre, suf)
      | none => none

/-- The last-message inspection of `CohereChatPrompt::build` (cohere.rs lines
94-131): on a final User message with plain text, extract the result block
(mutating the message list and keeping `content[start..]` as context); on a
final User message with parts content the `if let` falls through (no error,
empty context); any other last message is `BadMessages`. -/
def cohereExtract (messages : List ChatCompletionRequestMessage) :
    Except PromptError (List ChatCompletionRequestMessage × String) :=
  match messages.getLast? with
  | some (.user m) =>
    match m.content with
    | .text content =>
      match splitAtResult content.data with
      | some (pre, suf) =>
        .ok (messages.set (messages.length - 1) (.user ⟨.text ⟨pre⟩, m.name⟩), ⟨suf⟩)
      | none => .error (.Operation "No match found")
    | .parts _ => .ok (messages, "")
  | _ => .error (.BadMessages cohereBadLast)

/-- `CohereChatPrompt::build` (cohere.rs lines 71-167).  Note the literal
`"|START_OF_TURN_TOKEN|>"` (no leading `<`) opening the grounding
instructions block, exactly as in cohere.rs line 160. -/
def cohere_build (messages : List ChatCompletionRequestMessage) :
    List ChatCompletionRequestMessage × Except PromptError String :=
  if messages.isEmpty then (messages, .error .NoMessages)
  else
    match cohereExtract messages with
    | .error e => (messages, .error e)
    | .ok (messages2, context) =>
      (messages2,
        (chatFold cohere_append_user cohere_append_assistant none messages2 "").map
          (fun prompt =>
            prompt ++ "<|START_OF_TURN_TOKEN|><|SYSTEM_TOKEN|>" ++ context
              ++ "<|END_OF_TURN_TOKEN|>"
              ++ "|START_OF_TURN_TOKEN|><|SYSTEM_TOKEN|>" ++ cohereInstructions
              ++ "<|END_OF_TURN_TOKEN|>"
              ++ "<|START_OF_TURN_TOKEN|><|CHATBOT_TOKEN|>"))

/-! ## Small observers used in claim statements -/

/-- Is a conversation entry a User message? -/
def isUserMessage : ChatCompletionRequestMessage → Bool
  | .user _ => true
  | _ => false

/-- Does the conversation start with a System message? -/
def headIsSystem : List ChatCompletionRequestMessage → Bool
  | .system _ :: _ => true
  | _ => false

/-- A sample tool definition named `get_weather` with a small object schema. -/
def getWeatherTool : Tool :=
  ⟨⟨"get_weather", .obj (.cons "type" (.str "object") (.cons "properties" (.obj .nil) .nil))⟩⟩

/-! ## Supporting lemmas -/

/-- `List.isPrefixOf` agrees with the existence of a completing suffix. -/
theorem isPrefixOf_iff_exists (p s : List Char) :
    p.isPrefixOf s = true ↔ ∃ t, s = p ++ t := by
  induction p generalizing s with
  | nil => simp [List.isPrefixOf]
  | cons a p ih =>
    cases s with
    | nil => simp [List.isPrefixOf]
    | cons b s2 =>
      simp only [List.isPrefixOf, Bool.and_eq_true, beq_iff_eq, ih, List.cons_append,
        List.cons.injEq]
      constructor
      · rintro ⟨rfl, t, rfl⟩
        exact ⟨t, rfl, rfl⟩
      · rintro ⟨t, rfl, rfl⟩
        exact ⟨rfl, t, rfl⟩

/-- `hasSubL` agrees with the existence of a decomposition around the pattern. -/
theorem hasSubL_iff (pat s : List Char) :
    hasSubL pat s = true ↔ ∃ a b, s = a ++ pat ++ b := by
  induction s with
  | nil =>
    cases pat with
    | nil => simp [hasSubL, List.isPrefixOf]
    | cons c p => simp [hasSubL, List.isPrefixOf]
  | cons c r ih =>
    simp only [hasSubL, Bool.or_eq_true, ih, isPrefixOf_iff_exists]
    constructor
    · rintro (⟨t, ht⟩ | ⟨a, b, rfl⟩)
      · exact ⟨[], t, by simp [ht]⟩
      · exact ⟨c :: a, b, rfl⟩
    · rintro ⟨a, b, hab⟩
      cases a with
      | nil =>
        exact Or.inl ⟨b, by simpa using hab⟩
      | cons a0 a2 =>
        rw [List.cons_append, List.cons_append] at hab
        injection hab with h1 h2
        exact Or.inr ⟨a2, b, h2⟩

/-- A pattern occurs in itself. -/
theorem hasSubL_self (pat : List Char) : hasSubL pat pat = true :=
  (hasSubL_iff pat pat).2 ⟨[], [], by simp⟩

/-- Occurrence survives extending the text on the right. -/
theorem hasSubL_append_right (pat s t : List Char) (h : hasSubL pat s = true) :
    hasSubL pat (s ++ t) = true := by
  rcases (hasSubL_iff pat s).1 h with ⟨a, b, rfl⟩
  exact (hasSubL_iff _ _).2 ⟨a, b ++ t, by simp⟩

/-- Occurrence survives extending the text on the left. -/
theorem hasSubL_append_left (pat s t : List Char) (h : hasSubL pat t = true) :
    hasSubL pat (s ++ t) = true := by
  rcases (hasSubL_iff pat t).1 h with ⟨a, b, rfl⟩
  exact (hasSubL_iff _ _).2 ⟨s ++ a, b, by simp⟩

/-- String-level: a pattern occurs in itself. -/
theorem hasSubStr_self (pat : String) : hasSubStr pat pat = true :=
  hasSubL_self pat.data

/-- String-level: occurrence survives extending the text on the right. -/
theorem hasSubStr_append_right (pat s t : String) (h : hasSubStr pat s = true) :
    hasSubStr pat (s ++ t) = true := by
  simpa [hasSubStr, String.data_append] using
    hasSubL_append_right pat.data s.data t.data h

/-- String-level: occurrence survives extending the text on the left. -/
theorem hasSubStr_append_left (pat s t : String) (h : hasSubStr pat t = true) :
    hasSubStr pat (s ++ t) = true := by
  simpa [hasSubStr, String.data_append] using
    hasSubL_append_left pat.data s.data t.data h

/-- The normalizer's accumulator loop against the spec's fold. -/
theorem partsToStringAux_eq (ps : List ContentPart) :
    ∀ acc : String, partsToStringAux acc ps = acc ++ specNormalize ps := by
  induction ps with
  | nil => intro acc; simp [partsToStringAux, specNormalize]
  | cons p rest ih =>
    intro acc
    cases p with
    | text t => simp [partsToStringAux, specNormalize, ih, String.append_assoc]
    | image u => simp [partsToStringAux, specNormalize, ih]

/-- A successful `splitAtResult` splits the input. -/
theorem splitAtResult_append :
    ∀ (s pre suf : List Char), splitAtResult s = some (pre, suf) → s = pre ++ suf := by
  intro s
  induction s with
  | nil => intro pre suf h; simp [splitAtResult] at h
  | cons c rest ih =>
    intro pre suf h
    rw [splitAtResult] at h
    split at h
    · simp only [Option.some.injEq, Prod.mk.injEq] at h
      obtain ⟨rfl, rfl⟩ := h.symm
      rfl
    · cases hres : splitAtResult rest with
      | none => rw [hres] at h; cases h
      | some pq =>
        obtain ⟨p2, q2⟩ := pq
        rw [hres] at h
        simp only [Option.some.injEq, Prod.mk.injEq] at h
        obtain ⟨rfl, rfl⟩ := h.symm
        rw [List.cons_append]
        exact congrArg (c :: ·) (ih p2 q2 hres)

/-- A successful `splitAtResult` returns a suffix beginning with the opening
tag and containing the closing tag behind it. -/
theorem splitAtResult_suffix_shape :
    ∀ (s pre suf : List Char), splitAtResult s = some (pre, suf) →
      ∃ b c, suf = "<result>".data ++ b ++ "</result>".data ++ c := by
  intro s
  induction s with
  | nil => intro pre suf h; simp [splitAtResult] at h
  | cons ch rest ih =>
    intro pre suf h
    rw [splitAtResult] at h
    split at h
    · rename_i hcond
      simp only [Option.some.injEq, Prod.mk.injEq] at h
      obtain ⟨rfl, rfl⟩ := h.symm
      rw [Bool.and_eq_true] at hcond
      obtain ⟨hopen, hclose⟩ := hcond
      rcases (isPrefixOf_iff_exists _ _).1 hopen with ⟨t, ht⟩
      have hdrop : List.drop 8 (ch :: rest) = t := by
        rw [ht]
        exact List.drop_left' (by rfl)
      rw [hdrop] at hclose
      rcases (hasSubL_iff _ _).1 hclose with ⟨b, c2, rfl⟩
      exact ⟨b, c2, by simp [ht, List.append_assoc]⟩
    · cases hres : splitAtResult rest with
      | none => rw [hres] at h; cases h
      | some pq =>
        obtain ⟨p2, q2⟩ := pq
        rw [hres] at h
        simp only [Option.some.injEq, Prod.mk.injEq] at h
        obtain ⟨rfl, rfl⟩ := h.symm
        exact ih p2 q2 hres

/-- Completeness of `splitAtResult`: whenever the text decomposes around the
two tags (close at offset at least 8 past the open), some match is found. -/
theorem splitAtResult_isSome_of :
    ∀ (s : List Char),
      (∃ a b c, s = a ++ "<result>".data ++ b ++ "</result>".data ++ c) →
      (splitAtResult s).isSome = true := by
  intro s
  induction s with
  | nil =>
    rintro ⟨a, b, c, habc⟩
    simp at habc
  | cons ch rest ih =>
    rintro ⟨a, b, c, habc⟩
    rw [splitAtResult]
    split
    · rfl
    · rename_i hcond
      cases a with
      | nil =>
        exact absurd (by
          rw [Bool.and_eq_true]
          refine ⟨(isPrefixOf_iff_exists _ _).2
            ⟨b ++ ("</result>".data ++ c), by simpa [List.append_assoc] using habc⟩, ?_⟩
          have hdrop : List.drop 8 (ch :: rest) = b ++ ("</result>".data ++ c) := by
            rw [show ch :: rest = "<result>".data ++ (b ++ ("</result>".data ++ c)) from by
              simpa [List.append_assoc] using habc]
            exact List.drop_left' (by rfl)
          rw [hdrop]
          exact hasSubL_append_left _ b _
            (hasSubL_append_right _ _ c (hasSubL_self _))) hcond
      | cons a0 a2 =>
        simp only [List.cons_append] at habc
        injection habc with h1 h2
        have hih := ih ⟨a2, b, c, h2⟩
        cases hres : splitAtResult rest with
        | none => rw [hres] at hih; simp at hih
        | some pq =>
          obtain ⟨p2, q2⟩ := pq
          rfl

/-- A conversation containing an Assistant message with neither content nor
tool-calls makes any `build` fold fail with `NoAssistantMessage`. -/
theorem chatFold_bad (fu : String → ChatCompletionUserMessage → String)
    (fa : String → String → String)
    (ft : Option (String → ChatCompletionToolMessage → String)) :
    ∀ (messages : List ChatCompletionRequestMessage) (p : String),
      messages.any isBadAssistant = true →
      chatFold fu fa ft messages p = .error .NoAssistantMessage := by
  intro messages
  induction messages with
  | nil => intro p h; simp at h
  | cons m rest ih =>
    intro p h
    rw [List.any_cons, Bool.or_eq_true] at h
    cases hm : isBadAssistant m with
    | true =>
      cases m with
      | assistant a =>
        have hm2 : a.content = none ∧ a.tool_calls = none := by
          simpa [isBadAssistant, Option.isNone_iff_eq_none] using hm
        simp [chatFold, stepMsg, assistantContent, hm2.1, hm2.2, Except.map]
      | system s2 => simp [isBadAssistant] at hm
      | user u => simp [isBadAssistant] at hm
      | tool t => simp [isBadAssistant] at hm
    | false =>
      have hrest : rest.any isBadAssistant = true := by
        rcases h with h | h
        · rw [hm] at h; cases h
        · exact h
      cases m with
      | user u =>
        simp only [chatFold, stepMsg]
        exact ih _ hrest
      | system s2 =>
        simp only [chatFold, stepMsg]
        exact ih _ hrest
      | tool t =>
        cases ft with
        | some f =>
          simp only [chatFold, stepMsg]
          exact ih _ hrest
        | none =>
          simp only [chatFold, stepMsg]
          exact ih _ hrest
      | assistant a =>
        cases hc : a.content with
        | some c =>
          simp only [chatFold, stepMsg, assistantContent, hc, Except.map]
          exact ih _ hrest
        | none =>
          cases htc : a.tool_calls with
          | some tc =>
            simp only [chatFold, stepMsg, assistantContent, hc, htc, Except.map]
            exact ih _ hrest
          | none => simp [isBadAssistant, hc, htc] at hm

/-- The compact serialization of a tool named `get_weather` contains that
name (as the content of its serialized `name` field). -/
theorem hasSub_get_weather_tool (params : Json) :
    hasSubStr "get_weather" (jsonCompact (toolToJson ⟨⟨"get_weather", params⟩⟩)) = true := by
  show hasSubStr "get_weather"
    ("\x7b" ++ strLit "function" ++ ":"
      ++ ("\x7b" ++ strLit "name" ++ ":" ++ strLit "get_weather"
          ++ jsonCompactObj (.cons "parameters" params .nil) ++ "\x7d")
      ++ jsonCompactObj .nil ++ "\x7d") = true
  apply hasSubStr_append_right
  apply hasSubStr_append_right
  apply hasSubStr_append_left
  apply hasSubStr_append_right
  apply hasSubStr_append_right
  apply hasSubStr_append_left
  decide

/-- An occurrence inside one member's serialization survives into the
comma-separated tail serialization of a tool list. -/
theorem hasSub_jsonCompactArr_of_mem (pat : String) (ts : List Tool) (t : Tool)
    (ht : t ∈ ts) (h : hasSubStr pat (jsonCompact (toolToJson t)) = true) :
    hasSubStr pat (jsonCompactArr (toolListToArr ts)) = true := by
  induction ts with
  | nil => cases ht
  | cons t0 rest ih =>
    rcases List.mem_cons.1 ht with rfl | hmem
    · show hasSubStr pat
        ("," ++ jsonCompact (toolToJson t) ++ jsonCompactArr (toolListToArr rest)) = true
      apply hasSubStr_append_right
      exact hasSubStr_append_left _ _ _ h
    · show hasSubStr pat
        ("," ++ jsonCompact (toolToJson t0) ++ jsonCompactArr (toolListToArr rest)) = true
      exact hasSubStr_append_left _ _ _ (ih hmem)

/-- An occurrence inside one member's serialization survives into
`serde_json::to_string` of the whole tool list. -/
theorem hasSub_toolsCompact_of_mem (pat : String) (ts : List Tool) (t : Tool)
    (ht : t ∈ ts) (h : hasSubStr pat (jsonCompact (toolToJson t)) = true) :
    hasSubStr pat (toolsCompact ts) = true := by
  cases ts with
  | nil => cases ht
  | cons t0 rest =>
    show hasSubStr pat
      ("[" ++ jsonCompact (toolToJson t0) ++ jsonCompactArr (toolListToArr rest) ++ "]") = true
    apply hasSubStr_append_right
    rcases List.mem_cons.1 ht with rfl | hmem
    · apply hasSubStr_append_right
      exact hasSubStr_append_left _ _ _ h
    · exact hasSubStr_append_left _ _ _ (hasSub_jsonCompactArr_of_mem pat rest t hmem h)

/-! ## Claims -/

/-- C6: for every formatter in the family (CohereChatPrompt,
DeepseekChatPrompt, DeepseekCoderPrompt, DeepseekChat2Prompt,
DeepseekChat25Prompt, DeepseekToolPrompt), calling `build` (and
`build_with_tools`, where available) on an empty message sequence fails with
the `NoMessages` error. -/
theorem c6_empty_conversation_fails_NoMessages :
    cohere_build [] = ([], .error .NoMessages)
    ∧ deepseekChat_build [] = ([], .error .NoMessages)
    ∧ deepseekCoder_build [] = ([], .error .NoMessages)
    ∧ deepseekChat2_build [] = ([], .error .NoMessages)
    ∧ deepseekChat25_build [] = ([], .error .NoMessages)
    ∧ deepseekTool_build [] = ([], .error .NoMessages)
    ∧ ∀ tools, deepseekTool_build_with_tools [] tools = ([], .error .NoMessages) :=
  ⟨rfl, rfl, rfl, rfl, rfl, rfl, fun _ => rfl⟩

/-- C8: the content normalizer on the parts sequence
`[Text "a", Image(...), Text "b"]` produces `"a\n" ++ "b\n"` before the
caller's trim, and in general it concatenates the text of every text-typed
part in order with a newline after each, skipping non-text parts (stated as
agreement with `specNormalize`, the spec's own wording of the fold). -/
theorem c8_normalizer_parts :
    userContentToString (.parts [.text ⟨"a"⟩, .image "uri", .text ⟨"b"⟩]) = "a\nb\n"
    ∧ ∀ ps, userContentToString (.parts ps) = specNormalize ps := by
  refine ⟨by decide, fun ps => ?_⟩
  show partsToStringAux "" ps = specNormalize ps
  rw [partsToStringAux_eq ps ""]
  exact String.empty_append _

/-- C9: every Deepseek formatter's `build` (and `build_with_tools`) returns
its input message sequence unchanged, on success and on failure alike; the
Cohere retrieval-context formatter does mutate its input (witnessed on a
conversation whose final User message carries a result block followed by
trailing text). -/
theorem c9_deepseek_builds_do_not_mutate :
    (∀ messages, (deepseekChat_build messages).1 = messages)
    ∧ (∀ messages, (deepseekCoder_build messages).1 = messages)
    ∧ (∀ messages, (deepseekChat2_build messages).1 = messages)
    ∧ (∀ messages, (deepseekChat25_build messages).1 = messages)
    ∧ (∀ messages, (deepseekTool_build messages).1 = messages)
    ∧ (∀ messages tools, (deepseekTool_build_with_tools messages tools).1 = messages)
    ∧ (cohere_build [.user ⟨.text "a <result>b</result> c", none⟩]).1
        ≠ [.user ⟨.text "a <result>b</result> c", none⟩] := by
  refine ⟨?_, ?_, ?_, ?_, ?_, ?_, ?_⟩
  · intro messages; unfold deepseekChat_build; split <;> rfl
  · intro messages; unfold deepseekCoder_build; split <;> rfl
  · intro messages; unfold deepseekChat2_build; split <;> rfl
  · intro messages; unfold deepseekChat25_build; split <;> rfl
  · intro messages; unfold deepseekTool_build; split <;> rfl
  · intro messages tools; unfold deepseekTool_build_with_tools; split <;> rfl
  · decide

/-- C10: an Assistant message with absent content but `tool_calls` present as
an empty list is accepted by every formatter: the shared content resolution
yields the empty string (the check is `tool_calls().is_some()`, not
non-emptiness), and each `build` (and `build_with_tools`) succeeds on a
conversation containing such a message. -/
theorem c10_empty_tool_call_list_accepted :
    (∀ nm : Option String, assistantContent ⟨none, some [], nm⟩ = .ok "")
    ∧ isOkE (deepseekChat_build
        [.user ⟨.text "hi", none⟩, .assistant ⟨none, some [], none⟩]).2 = true
    ∧ isOkE (deepseekCoder_build
        [.user ⟨.text "hi", none⟩, .assistant ⟨none, some [], none⟩]).2 = true
    ∧ isOkE (deepseekChat2_build
        [.user ⟨.text "hi", none⟩, .assistant ⟨none, some [], none⟩]).2 = true
    ∧ isOkE (deepseekChat25_build
        [.user ⟨.text "hi", none⟩, .assistant ⟨none, some [], none⟩]).2 = true
    ∧ isOkE (deepseekTool_build
        [.user ⟨.text "hi", none⟩, .assistant ⟨none, some [], none⟩]).2 = true
    ∧ isOkE (deepseekTool_build_with_tools
        [.user ⟨.text "hi", none⟩, .assistant ⟨none, some [], none⟩] none).2 = true
    ∧ isOkE (cohere_build
        [.assistant ⟨none, some [], none⟩,
         .user ⟨.text "q <result>r</result>", none⟩]).2 = true := by
  refine ⟨fun nm => rfl, ?_, ?_, ?_, ?_, ?_, ?_, ?_⟩ <;> decide

/-- C1: code-bug evidence.  On the conversation
`[User "What is X? <result>doc1</result>"]` the build succeeds, and the
grounding-instructions block in the returned prompt is opened by the literal
`"|START_OF_TURN_TOKEN|><|SYSTEM_TOKEN|>"` — the grammar marker with its
leading `<` missing (cohere.rs line 160) — while the spec-mandated opener
`"<|START_OF_TURN_TOKEN|><|SYSTEM_TOKEN|>"` directly followed by the
instructions text occurs nowhere in the prompt. -/
theorem c1_grounding_block_opener_missing_bracket :
    isOkE (cohere_build [.user ⟨.text "What is X? <result>doc1</result>", none⟩]).2 = true
    ∧ hasSubStr ("|START_OF_TURN_TOKEN|><|SYSTEM_TOKEN|>" ++ cohereInstructions
          ++ "<|END_OF_TURN_TOKEN|>")
        (getOk (cohere_build [.user ⟨.text "What is X? <result>doc1</result>", none⟩]).2)
        = true
    ∧ hasSubStr ("<|START_OF_TURN_TOKEN|><|SYSTEM_TOKEN|>" ++ cohereInstructions)
        (getOk (cohere_build [.user ⟨.text "What is X? <result>doc1</result>", none⟩]).2)
        = false := by
  refine ⟨by decide, by decide, by decide⟩

/-- C2 counterexample: a conversation whose last message is a User message
with parts content is NOT rejected with `BadMessages` — the `if let
Text(..)` in cohere.rs lines 98-124 silently falls through and the build
succeeds. -/
theorem c2_counterexample_parts_last_not_rejected :
    isOkE (cohere_build [.user ⟨.parts [.text ⟨"hi"⟩], none⟩]).2 = true := by
  decide

/-- C2 amended: `CohereChatPrompt::build` fails with `BadMessages` exactly
when the last message is a System, Assistant or Tool message (not a User
message); a final User message whose content is a parts sequence is not
rejected — context extraction is skipped and construction proceeds. -/
theorem c2_amended_last_not_user_fails_BadMessages :
    (∀ (messages : List ChatCompletionRequestMessage) (m : ChatCompletionRequestMessage),
        messages.getLast? = some m → isUserMessage m = false →
        cohere_build messages = (messages, .error (.BadMessages cohereBadLast)))
    ∧ isOkE (cohere_build [.user ⟨.parts [.text ⟨"p1"⟩, .image "u", .text ⟨"p2"⟩], none⟩]).2
        = true := by
  refine ⟨?_, by decide⟩
  intro messages m h1 h2
  have hne : messages ≠ [] := by intro hnil; rw [hnil] at h1; cases h1
  have hE : messages.isEmpty = false := by
    cases messages with
    | nil => exact absurd rfl hne
    | cons a b => rfl
  have hext : cohereExtract messages = .error (.BadMessages cohereBadLast) := by
    cases m with
    | user u => simp [isUserMessage] at h2
    | system m2 => simp [cohereExtract, h1]
    | assistant m2 => simp [cohereExtract, h1]
    | tool m2 => simp [cohereExtract, h1]
  unfold cohere_build
  simp [hE, hext]

/-- C2 witness: a conversation ending in a System message is rejected with
`BadMessages`. -/
theorem c2_witness_system_last :
    cohere_build [.system ⟨"s", none⟩]
      = ([.system ⟨"s", none⟩], .error (.BadMessages cohereBadLast)) :=
  c2_amended_last_not_user_fails_BadMessages.1 _ (.system ⟨"s", none⟩) rfl rfl

/-- C3 counterexample: with trailing text after the result block, the
retained context is the whole suffix `content[start..]`, not just the
matched `<result>...</result>` block. -/
theorem c3_counterexample_context_is_suffix :
    cohereExtract [.user ⟨.text "Q <result>d</result> tail", none⟩]
      = .ok ([.user ⟨.text "Q ", none⟩], "<result>d</result> tail")
    ∧ ("<result>d</result> tail" : String) ≠ "<result>d</result>" := by
  exact ⟨rfl, by decide⟩

/-- C3 amended: on a final User message with plain text admitting a result
block, the last message is replaced in place by one holding only the text
before the block, and the retained context is the entire suffix from the
block start to the end of the text — it begins with the opening tag and
contains the closing tag, but equals the matched block alone only when
nothing follows it. -/
theorem c3_amended_extract_splits_at_block :
    ∀ (messages : List ChatCompletionRequestMessage) (s : String) (nm : Option String)
      (pre suf : List Char),
      messages.getLast? = some (.user ⟨.text s, nm⟩) →
      splitAtResult s.data = some (pre, suf) →
      cohereExtract messages
          = .ok (messages.set (messages.length - 1) (.user ⟨.text ⟨pre⟩, nm⟩), ⟨suf⟩)
        ∧ s.data = pre ++ suf
        ∧ (∃ b c, suf = "<result>".data ++ b ++ "</result>".data ++ c)
        ∧ (cohere_build messages).1
            = messages.set (messages.length - 1) (.user ⟨.text ⟨pre⟩, nm⟩) := by
  intro messages s nm pre suf h1 h2
  have hext : cohereExtract messages
      = .ok (messages.set (messages.length - 1) (.user ⟨.text ⟨pre⟩, nm⟩), ⟨suf⟩) := by
    simp [cohereExtract, h1, h2]
  refine ⟨hext, splitAtResult_append _ _ _ h2, splitAtResult_suffix_shape _ _ _ h2, ?_⟩
  have hne : messages ≠ [] := by intro hnil; rw [hnil] at h1; cases h1
  have hE : messages.isEmpty = false := by
    cases messages with
    | nil => exact absurd rfl hne
    | cons a b => rfl
  unfold cohere_build
  simp [hE, hext]

/-- C3 witness: the amended behaviour on a concrete one-message conversation
whose result block sits at the end of the text. -/
theorem c3_witness_concrete_split :
    cohereExtract [.user ⟨.text "What is Y? <result>d2</result>", none⟩]
        = .ok ([.user ⟨.text ⟨"What is Y? ".data⟩, none⟩], ⟨"<result>d2</result>".data⟩)
      ∧ ("What is Y? <result>d2</result>" : String).data
          = "What is Y? ".data ++ "<result>d2</result>".data
      ∧ (∃ b c, "<result>d2</result>".data
          = "<result>".data ++ b ++ "</result>".data ++ c)
      ∧ (cohere_build [.user ⟨.text "What is Y? <result>d2</result>", none⟩]).1
          = [.user ⟨.text ⟨"What is Y? ".data⟩, none⟩] :=
  c3_amended_extract_splits_at_block _ _ _ _ _ rfl rfl

/-- C4: a final User message with plain-text content admitting no
`<result>...</result>` decomposition makes the build fail with the
`Operation` error "No match found"; the message list is returned untouched
and no prompt is produced. -/
theorem c4_no_result_block_fails_Operation :
    ∀ (messages : List ChatCompletionRequestMessage) (s : String) (nm : Option String),
      messages.getLast? = some (.user ⟨.text s, nm⟩) →
      (¬ ∃ a b c, s.data = a ++ "<result>".data ++ b ++ "</result>".data ++ c) →
      cohere_build messages = (messages, .error (.Operation "No match found")) := by
  intro messages s nm h1 h2
  have hsplit : splitAtResult s.data = none := by
    cases hres : splitAtResult s.data with
    | none => rfl
    | some pq =>
      obtain ⟨pre, suf⟩ := pq
      exfalso
      rcases splitAtResult_suffix_shape _ _ _ hres with ⟨b, c, rfl⟩
      refine h2 ⟨pre, b, c, ?_⟩
      have hap := splitAtResult_append _ _ _ hres
      simpa [List.append_assoc] using hap
  have hext : cohereExtract messages = .error (.Operation "No match found") := by
    simp [cohereExtract, h1, hsplit]
  have hne : messages ≠ [] := by intro hnil; rw [hnil] at h1; cases h1
  have hE : messages.isEmpty = false := by
    cases messages with
    | nil => exact absurd rfl hne
    | cons a b => rfl
  unfold cohere_build
  simp [hE, hext]

/-- C4 witness: a plain question without any result block is rejected with
the `Operation` error. -/
theorem c4_witness_hello :
    cohere_build [.user ⟨.text "hello", none⟩]
      = ([.user ⟨.text "hello", none⟩], .error (.Operation "No match found")) :=
  c4_no_result_block_fails_Operation _ "hello" none rfl (by
    rintro ⟨a, b, c, h⟩
    have h2 := splitAtResult_isSome_of _ ⟨a, b, c, h⟩
    rw [show splitAtResult ("hello" : String).data = none from rfl] at h2
    simp at h2)

/-- C7 counterexample: `CohereChatPrompt::build` on a conversation that does
contain a content-less, tool-call-less Assistant message fails with
`BadMessages` (the last-message check fires first), not with
`NoAssistantMessage`. -/
theorem c7_counterexample_cohere_checks_last_first :
    cohere_build [.assistant ⟨none, none, none⟩]
      = ([.assistant ⟨none, none, none⟩], .error (.BadMessages cohereBadLast))
    ∧ (PromptError.BadMessages cohereBadLast ≠ .NoAssistantMessage) :=
  ⟨rfl, by decide⟩

/-- C7 amended: every Deepseek formatter (build, and build_with_tools for
the tool formatter) fails with `NoAssistantMessage` on any conversation
containing an Assistant message with neither content nor tool-calls; for
Cohere the last-message inspection runs first, so this holds once the final
message is a User text message with a result block (concrete instance). -/
theorem c7_amended_bad_assistant_NoAssistantMessage :
    (∀ messages, messages.any isBadAssistant = true →
        deepseekChat_build messages = (messages, .error .NoAssistantMessage))
    ∧ (∀ messages, messages.any isBadAssistant = true →
        deepseekCoder_build messages = (messages, .error .NoAssistantMessage))
    ∧ (∀ messages, messages.any isBadAssistant = true →
        deepseekChat2_build messages = (messages, .error .NoAssistantMessage))
    ∧ (∀ messages, messages.any isBadAssistant = true →
        deepseekChat25_build messages = (messages, .error .NoAssistantMessage))
    ∧ (∀ messages, messages.any isBadAssistant = true →
        deepseekTool_build messages = (messages, .error .NoAssistantMessage))
    ∧ (∀ messages tools, messages.any isBadAssistant = true →
        deepseekTool_build_with_tools messages tools
          = (messages, .error .NoAssistantMessage))
    ∧ cohere_build [.assistant ⟨none, none, none⟩, .user ⟨.text "Q <result>d</result>", none⟩]
        = ([.assistant ⟨none, none, none⟩, .user ⟨.text "Q ", none⟩],
            .error .NoAssistantMessage) := by
  have hprep : ∀ messages : List ChatCompletionRequestMessage,
      messages.any isBadAssistant = true →
      messages.isEmpty = false
        ∧ ∀ fu fa ft p, chatFold fu fa ft messages p = .error .NoAssistantMessage := by
    intro messages h
    refine ⟨?_, fun fu fa ft p => chatFold_bad fu fa ft messages p h⟩
    cases messages with
    | nil => simp at h
    | cons a b => rfl
  refine ⟨?_, ?_, ?_, ?_, ?_, ?_, rfl⟩
  · intro messages h
    obtain ⟨hE, hbad⟩ := hprep messages h
    simp [deepseekChat_build, hE, hbad, Except.map]
  · intro messages h
    obtain ⟨hE, hbad⟩ := hprep messages h
    simp [deepseekCoder_build, hE, hbad, Except.map]
  · intro messages h
    obtain ⟨hE, hbad⟩ := hprep messages h
    simp [deepseekChat2_build, hE, hbad, Except.map]
  · intro messages h
    obtain ⟨hE, hbad⟩ := hprep messages h
    simp [deepseekChat25_build, hE, hbad, Except.map]
  · intro messages h
    obtain ⟨hE, hbad⟩ := hprep messages h
    simp [deepseekTool_build, hE, hbad, Except.map]
  · intro messages tools h
    obtain ⟨hE, hbad⟩ := hprep messages h
    simp [deepseekTool_build_with_tools, hE, hbad, Except.map]

/-- C7 witness: the amended Deepseek behaviour on a concrete conversation. -/
theorem c7_witness_deepseek_chat :
    deepseekChat_build [.assistant ⟨none, none, none⟩]
      = ([.assistant ⟨none, none, none⟩], .error .NoAssistantMessage) :=
  c7_amended_bad_assistant_NoAssistantMessage.1 [.assistant ⟨none, none, none⟩] rfl

/-- C5 counterexample: with no leading System message,
`build_with_tools` synthesizes the function-calling template with the
COMPACT `serde_json::to_string` rendering: the pretty-printed rendering of
the `get_weather` function schema (or of its parameters) occurs nowhere in
the preamble, and a supplied-but-empty tool list yields the
`<tools> [] </tools>` template rather than the tool-free default text. -/
theorem c5_counterexample_compact_not_pretty :
    hasSubStr "get_weather"
      (deepseekTool_system_prompt_wt [.user ⟨.text "hi", none⟩] (some [getWeatherTool]))
      = true
    ∧ hasSubStr (jsonPretty 0 (funcToJson getWeatherTool.function))
        (deepseekTool_system_prompt_wt [.user ⟨.text "hi", none⟩] (some [getWeatherTool]))
        = false
    ∧ hasSubStr (jsonPretty 0 getWeatherTool.function.parameters)
        (deepseekTool_system_prompt_wt [.user ⟨.text "hi", none⟩] (some [getWeatherTool]))
        = false
    ∧ deepseekTool_system_prompt_wt [.user ⟨.text "hi", none⟩] (some [])
        ≠ deepseekToolBwtDefault := by
  refine ⟨by decide, by decide, by decide, by decide⟩

/-- C5 amended: for `build_with_tools` on a conversation whose first message
is not a System message: with supplied tools containing one named
`get_weather`, the synthesized preamble contains the literal `"get_weather"`
and the compact `serde_json::to_string` serialization of the whole tool list
wrapped in `<tools> ... </tools>`; with no tools supplied it is the fixed
tool-free default; with a supplied-but-empty list it is the function-calling
template around an empty JSON array (the pretty-printed schema rendering
appears only on the `create_system_prompt_tool` path, i.e. when the first
message IS a System message). -/
theorem c5_amended_tool_preamble_compact :
    (∀ (messages : List ChatCompletionRequestMessage) (ts : List Tool),
        headIsSystem messages = false →
        (∃ t ∈ ts, t.function.name = "get_weather") →
        hasSubStr "get_weather" (deepseekTool_system_prompt_wt messages (some ts)) = true
        ∧ hasSubStr ("<tools> " ++ toolsCompact ts ++ " </tools>")
            (deepseekTool_system_prompt_wt messages (some ts)) = true)
    ∧ (∀ messages, headIsSystem messages = false →
        deepseekTool_system_prompt_wt messages none = deepseekToolBwtDefault)
    ∧ (∀ messages, headIsSystem messages = false →
        deepseekTool_system_prompt_wt messages (some [])
          = deepseekToolBwtBegin ++ " " ++ "<tools> [] </tools>" ++ " "
              ++ deepseekToolBwtEnd) := by
  have hform : ∀ (messages : List ChatCompletionRequestMessage) (tools : Option (List Tool)),
      headIsSystem messages = false →
      deepseekTool_system_prompt_wt messages tools
        = match tools with
          | some ts =>
            deepseekToolBwtBegin ++ " " ++ ("<tools> " ++ toolsCompact ts ++ " </tools>")
              ++ " " ++ deepseekToolBwtEnd
          | none => deepseekToolBwtDefault := by
    intro messages tools hh
    cases messages with
    | nil => rfl
    | cons m rest =>
      cases m with
      | system m2 => simp [headIsSystem] at hh
      | user u => rfl
      | assistant a => rfl
      | tool t2 => rfl
  refine ⟨?_, ?_, ?_⟩
  · intro messages ts hh hgw
    obtain ⟨t, htmem, htname⟩ := hgw
    rw [hform messages (some ts) hh]
    constructor
    · apply hasSubStr_append_right
      apply hasSubStr_append_right
      apply hasSubStr_append_left
      apply hasSubStr_append_right
      apply hasSubStr_append_left
      obtain ⟨⟨nm, params⟩⟩ := t
      have hnm : nm = "get_weather" := htname
      subst hnm
      exact hasSub_toolsCompact_of_mem _ ts _ htmem (hasSub_get_weather_tool params)
    · apply hasSubStr_append_right
      apply hasSubStr_append_right
      apply hasSubStr_append_left
      exact hasSubStr_self _
  · intro messages hh
    rw [hform messages none hh]
  · intro messages hh
    rw [hform messages (some []) hh]
    rfl

/-- C5 witness: the amended behaviour at a concrete conversation and the
concrete `get_weather` tool. -/
theorem c5_witness_get_weather :
    (hasSubStr "get_weather"
        (deepseekTool_system_prompt_wt [.user ⟨.text "w", none⟩] (some [getWeatherTool]))
        = true
      ∧ hasSubStr ("<tools> " ++ toolsCompact [getWeatherTool] ++ " </tools>")
          (deepseekTool_system_prompt_wt [.user ⟨.text "w", none⟩] (some [getWeatherTool]))
          = true)
    ∧ deepseekTool_system_prompt_wt [.user ⟨.text "w", none⟩] none = deepseekToolBwtDefault
    ∧ deepseekTool_system_prompt_wt [.user ⟨.text "w", none⟩] (some [])
        = deepseekToolBwtBegin ++ " " ++ "<tools> [] </tools>" ++ " "
            ++ deepseekToolBwtEnd :=
  ⟨c5_amended_tool_preamble_compact.1 _ [getWeatherTool] rfl
      ⟨getWeatherTool, List.mem_cons_self getWeatherTool [], rfl⟩,
    c5_amended_tool_preamble_compact.2.1 _ rfl,
    c5_amended_tool_preamble_compact.2.2 _ rfl⟩

end LlamaEdge
